import Mathlib

/-!
Verification of `cfn-generator` (dacut/cfn-generator), a set of custom
CloudFormation resource handlers.  The development shallowly embeds
`src/handler.py`: Python values become the inductive `Value`, Python dicts
become association lists with unique keys, Python exceptions become the
`PyErr` sum carried in `Except`, and external collaborators (boto3 clients,
passlib generators, `os.urandom`, `uuid4`, the `amifilter` and `hashparams`
modules that live outside `src/`) are fields of an `Env` record.
-/

namespace CfnGen

/-- Embedding of the Python values that flow through the handlers:
strings, integers, booleans, lists and string-keyed mappings. -/
inductive Value where
  | str : String → Value
  | int : Int → Value
  | bool : Bool → Value
  | list : List Value → Value
  | dict : List (String × Value) → Value
deriving Repr, Inhabited

/-- A Python dict with string keys, as an association list.  Python dicts
have unique keys, so removing the first binding of a key and removing all
of them agree on every state reachable from a real dict. -/
abbrev Dict := List (String × Value)

/-- Lookup of `d[k]` / `d.get(k)`, as an option. -/
def Dict.getVal (d : Dict) (k : String) : Option Value :=
  (d.find? (fun p => p.1 == k)).map (·.2)

/-- Membership test `k in d`. -/
def Dict.hasKey (d : Dict) (k : String) : Bool :=
  d.any (fun p => p.1 == k)

/-- Removal of every binding of `k`; on a well-formed dict this is the
state of the dict after `d.pop(k, default)`. -/
def Dict.erase (d : Dict) (k : String) : Dict :=
  d.filter (fun p => p.1 != k)

/-- Embedding of Python exceptions by class and message. -/
inductive PyErr where
  | valueError : String → PyErr
  | typeError : String → PyErr
  | keyError : String → PyErr
  | indexError : String → PyErr
deriving Repr, DecidableEq

/-- Rendering `str(e)` of an exception: `ValueError`, `TypeError` and
`IndexError` print their message; `KeyError` prints the repr of the key. -/
def PyErr.str : PyErr → String
  | .valueError m => m
  | .typeError m => m
  | .keyError k => "\x27" ++ k ++ "\x27"
  | .indexError m => m

mutual

/-- Embedding of Python `repr` on the embedded values (string escaping
inside `repr` of a string is not modelled beyond the surrounding quotes). -/
def pyRepr : Value → String
  | .str s => "\x27" ++ s ++ "\x27"
  | .int n => toString n
  | .bool b => if b then "True" else "False"
  | .list l => "[" ++ pyReprList l ++ "]"
  | .dict l => "\x7b" ++ pyReprDict l ++ "\x7d"

/-- Comma-separated reprs of the elements of a list. -/
def pyReprList : List Value → String
  | [] => ""
  | [v] => pyRepr v
  | v :: rest => pyRepr v ++ ", " ++ pyReprList rest

/-- Comma-separated `key: value` reprs of the entries of a dict. -/
def pyReprDict : List (String × Value) → String
  | [] => ""
  | [(k, v)] => "\x27" ++ k ++ "\x27: " ++ pyRepr v
  | (k, v) :: rest => "\x27" ++ k ++ "\x27: " ++ pyRepr v ++ ", " ++ pyReprDict rest

end

/-- Stable insertion step: place `a` before the first element `b` of the
already-arranged list with `le a b`. -/
def stableInsert (le : α → α → Bool) (a : α) : List α → List α
  | [] => [a]
  | b :: l => if le a b then a :: b :: l else b :: stableInsert le a l

/-- Stable sort by the boolean relation `le`.  Python `list.sort` (and
`sorted`) is a stable sort; every stable sort by the same total preorder
produces the same list, so this insertion sort is extensionally the
behaviour of `list.sort` with `le` as the (non-strict) comparison. -/
def stableSort (le : α → α → Bool) : List α → List α
  | [] => []
  | a :: l => stableInsert le a (stableSort le l)

/-- Lexicographic code-point comparison of character lists; this is the
order Python uses on `str`. -/
def charListLe : List Char → List Char → Bool
  | [], _ => true
  | _ :: _, [] => false
  | a :: as, b :: bs =>
    if a.toNat < b.toNat then true
    else if b.toNat < a.toNat then false
    else charListLe as bs

/-- Python string comparison `a <= b` (lexicographic by code point). -/
def pyStrLe (a b : String) : Bool := charListLe a.data b.data

/-- Python `", ".join(l)`. -/
def commaJoin : List String → String
  | [] => ""
  | [s] => s
  | s :: rest => s ++ ", " ++ commaJoin rest

/-- Value of a decimal digit list, most significant first. -/
def digitsVal : List Char → Nat → Nat
  | [], acc => acc
  | c :: rest, acc => digitsVal rest (10 * acc + (c.toNat - 48))

/-- Parse of a non-empty all-digit character list. -/
def parseDigits (cs : List Char) : Option Nat :=
  if cs ≠ [] ∧ cs.all Char.isDigit then some (digitsVal cs 0) else none

/-- Embedding of the Python builtin `int(...)` on the embedded values.
Booleans are a subtype of int in Python (`int(True) = 1`); strings are
parsed as optionally signed decimal literals (surrounding whitespace and
underscore separators, which Python also tolerates, are not modelled);
any other shape raises a `TypeError`. -/
def pyInt : Value → Except PyErr Int
  | .int n => .ok n
  | .bool b => .ok (if b then 1 else 0)
  | .str s =>
    let core : Except PyErr Int :=
      match s.data with
      | '-' :: rest => (parseDigits rest).elim
          (.error (.valueError ("invalid literal for int() with base 10: " ++ "\x27" ++ s ++ "\x27")))
          (fun n => .ok (-(n : Int)))
      | '+' :: rest => (parseDigits rest).elim
          (.error (.valueError ("invalid literal for int() with base 10: " ++ "\x27" ++ s ++ "\x27")))
          (fun n => .ok (n : Int))
      | cs => (parseDigits cs).elim
          (.error (.valueError ("invalid literal for int() with base 10: " ++ "\x27" ++ s ++ "\x27")))
          (fun n => .ok (n : Int))
    core
  | v => .error (.typeError ("int() argument must be a string, a bytes-like object or a real number, not " ++ pyRepr v))

/-- Embedding of `distutils.util.strtobool`: case-insensitive match of the
true and false vocabularies, `ValueError` otherwise. -/
def strtobool (s : String) : Except PyErr Bool :=
  let low := String.mk (s.data.map Char.toLower)
  if low ∈ ["y", "yes", "t", "true", "on", "1"] then .ok true
  else if low ∈ ["n", "no", "f", "false", "off", "0"] then .ok false
  else .error (.valueError ("invalid truth value " ++ pyRepr (.str s)))

/-- Embedding of Python truthiness `bool(v)` for the shapes that reach it
in `get_hash_algorithm` (strings and containers are dealt with earlier). -/
def pyTruthy : Value → Bool
  | .int n => n ≠ 0
  | .bool b => b
  | .str s => s ≠ ""
  | .list l => !l.isEmpty
  | .dict l => !l.isEmpty

/-- Bytes are natural numbers; well-formed byte strings have every entry
below 256. -/
abbrev Bytes := List Nat

/-- ISO-8859-1 (`latin-1`) decoding: one character per byte, the character
being the byte's code point. -/
def isoDecode (bs : Bytes) : String := String.mk (bs.map Char.ofNat)

/-- Lower-case hexadecimal digits. -/
def hexChars : List Char := "0123456789abcdef".data

/-- Lower-case hex digit of a value below 16. -/
def hexDigit (n : Nat) : Char := hexChars.getD n '0'

/-- Index of a lower-case hex digit, as an option. -/
def hexVal (c : Char) : Option Nat :=
  if c ∈ hexChars then some (hexChars.indexOf c) else none

/-- Hex encoding of a byte string, two lower-case digits per byte: the
embedding of `b16encode(result).decode("ascii").lower()`. -/
def hexEncode : Bytes → List Char
  | [] => []
  | b :: rest => hexDigit (b / 16) :: hexDigit (b % 16) :: hexEncode rest

/-- Hex decoding, inverse of `hexEncode` on well-formed input. -/
def hexDecode : List Char → Option Bytes
  | [] => some []
  | [_] => none
  | c1 :: c2 :: rest =>
    match hexVal c1, hexVal c2, hexDecode rest with
    | some h, some l, some bs => some ((16 * h + l) :: bs)
    | _, _, _ => none

/-- Standard base64 alphabet. -/
def b64Chars : List Char :=
  "ABCDEFGHIJKLMNOPQRSTUVWXYZabcdefghijklmnopqrstuvwxyz0123456789+/".data

/-- Base64 character of a 6-bit value. -/
def b64Char (n : Nat) : Char := b64Chars.getD n 'A'

/-- Index of a base64 alphabet character, as an option. -/
def b64Val (c : Char) : Option Nat :=
  if c ∈ b64Chars then some (b64Chars.indexOf c) else none

/-- Base64 encoding of a byte string, three bytes to four characters with
`=` padding: the embedding of `base64.b64encode`. -/
def b64EncodeChars : Bytes → List Char
  | [] => []
  | [b0] =>
    [b64Char (b0 / 4), b64Char (b0 % 4 * 16), '=', '=']
  | [b0, b1] =>
    [b64Char (b0 / 4), b64Char (b0 % 4 * 16 + b1 / 16), b64Char (b1 % 16 * 4), '=']
  | b0 :: b1 :: b2 :: rest =>
    b64Char (b0 / 4) :: b64Char (b0 % 4 * 16 + b1 / 16) ::
    b64Char (b1 % 16 * 4 + b2 / 64) :: b64Char (b2 % 64) :: b64EncodeChars rest

/-- Base64 decoding of four-character groups with `=` padding, inverse of
`b64EncodeChars` on well-formed input: the embedding of `base64.b64decode`
on properly padded input (the stdlib's tolerance of stray non-alphabet
characters is not modelled). -/
def b64DecodeChars : List Char → Option Bytes
  | [] => some []
  | c0 :: c1 :: c2 :: c3 :: rest =>
    match b64Val c0, b64Val c1 with
    | some v0, some v1 =>
      if c2 = '=' then
        if c3 = '=' ∧ rest = [] then some [v0 * 4 + v1 / 16] else none
      else
        match b64Val c2 with
        | some v2 =>
          if c3 = '=' then
            if rest = [] then some [v0 * 4 + v1 / 16, v1 % 16 * 16 + v2 / 4] else none
          else
            match b64Val c3, b64DecodeChars rest with
            | some v3, some bs =>
              some ((v0 * 4 + v1 / 16) :: (v1 % 16 * 16 + v2 / 4) :: (v2 % 4 * 64 + v3) :: bs)
            | _, _ => none
        | none => none
    | _, _ => none
  | _ => none

/-- Base64 encoding as a string. -/
def b64Encode (bs : Bytes) : String := String.mk (b64EncodeChars bs)

/-- Base64 decoding of a string. -/
def b64Decode (s : String) : Option Bytes := b64DecodeChars s.data

/-- Embedding of Python `len(v)` for sized values; unsized values raise
`TypeError`. -/
def pyLen : Value → Except PyErr Nat
  | .str s => .ok s.length
  | .list l => .ok l.length
  | .dict l => .ok l.length
  | v => .error (.typeError ("object of type " ++ pyRepr v ++ " has no len()"))

/-- Embedding of Python `a < b` for the value shapes that are comparable
(numbers with numbers, strings with strings); mixed shapes raise
`TypeError`. -/
def pyLt : Value → Value → Except PyErr Bool
  | .int a, .int b => .ok (a < b)
  | .int a, .bool b => .ok (a < if b then 1 else 0)
  | .bool a, .int b => .ok ((if a then 1 else 0 : Int) < b)
  | .bool a, .bool b => .ok ((if a then 1 else 0 : Nat) < if b then 1 else 0)
  | .str a, .str b => .ok (charListLe a.data b.data ∧ a ≠ b)
  | _, _ => .error (.typeError "unorderable types")

/-- An image record as returned by `describe_images`; the fields the
handler reads. -/
structure Image where
  imageId : String
  creationDate : String
  virtualizationType : String
  rootDeviceType : String
deriving Repr, DecidableEq

/-- Modelled from the spec: a declared hash parameter of a scheme
(`hashparams.HashParameter`, whose module is not under `src/`):
a target keyword name, a type-coercion function (`none` meaning the
coercion raised `TypeError`/`ValueError`), an optional custom validator
that raises on invalid input, and optional length and value bounds. -/
structure HashParameter where
  algorithm_parameter : String
  type : Value → Option Value
  validator : Option (Value → Except PyErr Unit)
  min_length : Option Nat
  max_length : Option Nat
  min_value : Option Value
  max_value : Option Value

/-- Modelled from the spec: a hash-scheme descriptor
(`hashparams.HashAlgorithm`, whose module is not under `src/`): a
security flag, the declared parameters in order, and the passlib builder
(`builder.using(**kw).hash(password)`) as a function from the keyword
configuration and the password to the hash string. -/
structure HashAlgorithm where
  is_secure : Bool
  parameters : List (String × HashParameter)
  algorithm : Dict → String → String

/-- External collaborators of the handlers: everything imported from
outside `src/handler.py` (boto3 clients, passlib generators, `uuid4`,
`os.urandom`, `iso8601.parse_date`, the `amifilter` helpers and the
`hashparams` registry) is a field of this record. -/
structure Env where
  uuid : String
  parseDate : String → Int
  addFilters : Dict → Dict × List (String × Value)
  describeImages : Value → List Value → List Image
  filterNamesAndDescriptions : List Image → Dict → List Image
  genword : Dict → String
  genphrase : Dict → String
  kmsEncrypt : Value → Value → String → Bytes
  kmsDecrypt : Bytes → Dict → Except Unit String
  apigwGetRestApi : Value → Dict
  hashAlgorithms : String → Option HashAlgorithm
  urandom : Nat → Bytes

/-- A CloudFormation lifecycle event, with the fields `lambda_handler`
and the resource handlers read. -/
structure Event where
  requestType : String
  resourceType : String
  resourceProperties : Dict
  stackId : String
  requestId : String
  logicalResourceId : String
  responseURL : String
  physicalResourceId : Option String

/-- The response body assembled by `lambda_handler`; `reason = none` and
`data = none` model the absence of the `Reason` and `Data` keys. -/
structure Envelope where
  status : String
  reason : Option String
  stackId : String
  requestId : String
  logicalResourceId : String
  physicalResourceId : Option Value
  data : Option Dict
deriving Repr

/-- The mutable objects a handler touches: `eventProps` is the dict object
that `event["ResourceProperties"]` refers to, and `rp` is the handler-local
dict created by `rp = dict(event["ResourceProperties"])`.  Each embedded
statement that mutates a Python dict updates the component standing for
the object it targets; in the source every `pop` targets `rp`. -/
structure Store where
  eventProps : Dict
  rp : Dict

/-- Outcome of a Python computation over the store: a returned value or a
raised exception, each with the final state of the mutable objects. -/
inductive PyResult (α : Type) where
  | ret : α → Store → PyResult α
  | raise : PyErr → Store → PyResult α

/-- A resource handler: the event against the external collaborators,
returning result data (`none` embeds Python `None`) or raising. -/
abbrev Handler := Env → Event → PyResult (Option Dict)

/-- Store at handler entry: the local `rp` does not exist yet. -/
def initStore (event : Event) : Store :=
  { eventProps := event.resourceProperties, rp := [] }

/-- Embedding of `dict(d)`: a fresh dict object with the same entries, so
the value is the argument's value. -/
def dictCopy (d : Dict) : Dict := d

/-- Equality test of a Python value against a string: `v == s` is true
exactly when `v` is the equal string (Python equality across types is
`False`). -/
def valueEqStr (v : Value) (s : String) : Bool :=
  match v with
  | .str t => t == s
  | _ => false

/-- Sort key of `find_image.sort_key`: whether the image matches the
preferred virtualization type (an absent preference always matches),
likewise for the root device type, and the parsed creation date. -/
def sort_key (parseDate : String → Int) (pvt prdt : Option Value) (image : Image) :
    Bool × Bool × Int :=
  (pvt.elim true (fun v => valueEqStr v image.virtualizationType),
   prdt.elim true (fun v => valueEqStr v image.rootDeviceType),
   parseDate image.creationDate)

/-- Lexicographic order on sort keys with `false < true` on the booleans,
the order Python uses on these tuples. -/
def key_le (a b : Bool × Bool × Int) : Bool :=
  if a.1 = b.1 then (if a.2.1 = b.2.1 then a.2.2 ≤ b.2.2 else b.2.1) else b.1

/-- Embedding of `images.sort(key=sort_key, reverse=True)`: the stable
descending sort, an element allowed before another exactly when its key is
at least the other's. -/
def sortImagesDesc (parseDate : String → Int) (pvt prdt : Option Value)
    (images : List Image) : List Image :=
  stableSort
    (fun x y => key_le (sort_key parseDate pvt prdt y) (sort_key parseDate pvt prdt x))
    images

/-- Embedding of `find_image` (`Custom::FindImage`). -/
def find_image (env : Env) (event : Event) : PyResult (Option Dict) :=
  let st := initStore event
  if ¬(event.requestType = "Create" ∨ event.requestType = "Update") then .ret none st
  else
    let st := { st with rp := dictCopy st.eventProps }
    match st.rp.getVal "Owner" with
    | none => .raise (.valueError "Owner must be specified") st
    | some owner =>
      let afRes := env.addFilters st.rp
      let st := { st with rp := afRes.1 }
      let filters := afRes.2
      let ec2_filters :=
        filters.map (fun kv => Value.dict [("Name", Value.str kv.1), ("Values", kv.2)])
      let images := env.describeImages owner ec2_filters
      if images.isEmpty then
        .raise (.valueError "No AMIs found that match the filters applied.") st
      else
        let images := env.filterNamesAndDescriptions images st.rp
        let preferred_virtualization_type := st.rp.getVal "PreferredVirtualizationType"
        let preferred_root_device_type := st.rp.getVal "PreferredRootDeviceType"
        let images := sortImagesDesc env.parseDate
          preferred_virtualization_type preferred_root_device_type images
        let image_ids := images.map Image.imageId
        match image_ids with
        | [] => .raise (.indexError "list index out of range") st
        | id0 :: _ =>
          .ret (some [("ImageId", .str id0),
                      ("MatchingImageIds", .list (image_ids.map .str))]) st

/-- Embedding of `handle_genphrase_properties`: request properties to
keyword parameters for `genphrase` (the helper only reads the dict). -/
def handle_genphrase_properties (request_properties : Dict) : Except PyErr Dict :=
  if request_properties.hasKey "Chars" then
    .error (.valueError "Chars cannot be specified when PasswordType is \"phrase\"")
  else if request_properties.hasKey "Charset" then
    .error (.valueError "Charset cannot be specified when PasswordType is \"phrase\"")
  else do
    let generator_kw : Dict := []
    let generator_kw ←
      if request_properties.hasKey "Wordset" then
        if request_properties.hasKey "Words" then
          .error (.valueError "Words and Wordset are mutually exclusive")
        else
          .ok (generator_kw ++ [("wordset", (request_properties.getVal "Wordset").getD default)])
      else if request_properties.hasKey "Words" then
        .ok (generator_kw ++ [("words", (request_properties.getVal "Words").getD default)])
      else .ok generator_kw
    let generator_kw :=
      if request_properties.hasKey "Separator" then
        generator_kw ++ [("sep", (request_properties.getVal "Separator").getD default)]
      else generator_kw
    .ok generator_kw

/-- Embedding of `handle_genword_properties`: request properties to
keyword parameters for `genword` (the helper only reads the dict). -/
def handle_genword_properties (request_properties : Dict) : Except PyErr Dict :=
  if request_properties.hasKey "Words" then
    .error (.valueError "Words cannot be specified when PasswordType is \"word\"")
  else if request_properties.hasKey "Wordset" then
    .error (.valueError "Wordset cannot be specified when PasswordType is \"word\"")
  else do
    let generator_kw : Dict := []
    let generator_kw ←
      if request_properties.hasKey "Charset" then
        if request_properties.hasKey "Chars" then
          .error (.valueError "Chars and Charset are mutually exclusive")
        else
          .ok (generator_kw ++ [("charset", (request_properties.getVal "Charset").getD default)])
      else if request_properties.hasKey "Chars" then
        .ok (generator_kw ++ [("chars", (request_properties.getVal "Chars").getD default)])
      else .ok generator_kw
    if request_properties.hasKey "Separator" then
      .error (.valueError "Separator cannot be specified when PasswordType is \"word\"")
    else .ok generator_kw

/-- Embedding of `generate_password` (`Custom::GeneratePassword`). -/
def generate_password (env : Env) (event : Event) : PyResult (Option Dict) :=
  let st := initStore event
  if ¬(event.requestType = "Create" ∨ event.requestType = "Update") then .ret none st
  else
    let st := { st with rp := dictCopy st.eventProps }
    let password_type := (st.rp.getVal "PasswordType").getD (.str "word")
    let genprops : Except PyErr (Bool × Dict) :=
      if valueEqStr password_type "phrase" then
        (handle_genphrase_properties st.rp).map (fun kw => (true, kw))
      else if valueEqStr password_type "word" then
        (handle_genword_properties st.rp).map (fun kw => (false, kw))
      else
        .error (.valueError ("PasswordType must be \"word\" or \"phrase\": " ++ pyRepr password_type))
    match genprops with
    | .error e => .raise e st
    | .ok (usePhrase, kw) =>
      let entRes : Except PyErr Dict :=
        match st.rp.getVal "Entropy" with
        | none => .ok kw
        | some entropy =>
          match entropy with
          | .int _ => .ok (kw ++ [("entropy", entropy)])
          | .bool _ => .ok (kw ++ [("entropy", entropy)])
          | _ => .error (.valueError ("Entropy must be an integer: " ++ pyRepr entropy))
      match entRes with
      | .error e => .raise e st
      | .ok kw =>
        let password := if usePhrase then env.genphrase kw else env.genword kw
        match st.rp.getVal "EncryptionKey" with
        | none => .ret (some [("PlaintextPassword", .str password)]) st
        | some encryption_key =>
          let encryption_context := (st.rp.getVal "EncryptionContext").getD (.dict [])
          let blob := env.kmsEncrypt encryption_key encryption_context password
          .ret (some [("CiphertextBase64Password", .str (b64Encode blob))]) st

/-- Embedding of `handle_plaintext_password_hash_params`: pop the
plaintext password off `rp` and require it to be a string. -/
def handle_plaintext_password_hash_params (st : Store) : PyResult String :=
  match st.rp.getVal "PlaintextPassword" with
  | none => .raise (.keyError "PlaintextPassword") st
  | some plaintext_password =>
    let st := { st with rp := st.rp.erase "PlaintextPassword" }
    match plaintext_password with
    | .str s => .ret s st
    | _ => .raise (.typeError "PlaintextPassword must be a string") st

/-- Embedding of `handle_ciphertext_password_hash_params`: pop the base64
ciphertext and the optional encryption context off `rp`, decode and
decrypt, returning the plaintext. -/
def handle_ciphertext_password_hash_params (env : Env) (st : Store) : PyResult String :=
  match st.rp.getVal "CiphertextBase64Password" with
  | none => .raise (.keyError "CiphertextBase64Password") st
  | some ciphertext_b64_password =>
    let st := { st with rp := st.rp.erase "CiphertextBase64Password" }
    let encryption_context := st.rp.getVal "EncryptionContext"
    let st := { st with rp := st.rp.erase "EncryptionContext" }
    match ciphertext_b64_password with
    | .str cb =>
      let ecRes : Except PyErr Dict :=
        match encryption_context with
        | none => .ok []
        | some (.dict d) => .ok d
        | some _ => .error (.typeError "EncryptionContext must be a mapping")
      match ecRes with
      | .error e => .raise e st
      | .ok ecd =>
        match b64Decode cb with
        | none => .raise (.valueError "Invalid base64 encoding in CiphertextBase64Password") st
        | some ciphertext =>
          match env.kmsDecrypt ciphertext ecd with
          | .error _ => .raise (.valueError "Unable to decrypt CiphertextBase64Password") st
          | .ok plaintext => .ret plaintext st
    | _ => .raise (.typeError "CiphertextBase64Password must be a string") st

/-- Scheme-name normalization `scheme.replace("-", "_")`. -/
def hyphenToUnderscore (s : String) : String :=
  String.mk (s.data.map (fun c => if c = '-' then '_' else c))

/-- Coercion `get_hash_algorithm` applies to the popped `AllowInsecure`
value: strings go through `strtobool`, containers raise `TypeError`, and
anything else goes through `bool(...)`. -/
def coerce_allow_insecure : Value → Except PyErr Bool
  | .str s => strtobool s
  | .list _ => .error (.typeError "AllowInsecure must be true or false")
  | .dict _ => .error (.typeError "AllowInsecure must be true or false")
  | v => .ok (pyTruthy v)

/-- Embedding of `get_hash_algorithm`: pop `Scheme` and `AllowInsecure`
off `rp`, resolve the scheme in the registry and apply the insecurity
gate. -/
def get_hash_algorithm (env : Env) (st : Store) : PyResult HashAlgorithm :=
  let scheme := st.rp.getVal "Scheme"
  let st := { st with rp := st.rp.erase "Scheme" }
  let allowRaw := (st.rp.getVal "AllowInsecure").getD (.bool false)
  let st := { st with rp := st.rp.erase "AllowInsecure" }
  match coerce_allow_insecure allowRaw with
  | .error e => .raise e st
  | .ok allow_insecure =>
    match scheme with
    | none => .raise (.valueError "Scheme must be specified") st
    | some (.str s) =>
      if s = "" then .raise (.valueError "Scheme cannot be empty") st
      else
        match env.hashAlgorithms (hyphenToUnderscore s) with
        | none => .raise (.valueError ("Unknown scheme " ++ pyRepr (.str s))) st
        | some algorithm =>
          if !algorithm.is_secure && !allow_insecure then
            .raise (.valueError
              ("Scheme " ++ s ++ " is insecure and AllowInsecure was not specified")) st
          else .ret algorithm st
    | some _ => .raise (.typeError "Scheme must be a string") st

/-- Embedding of Python `str(v)` (only the shapes the messages need). -/
def pyStr : Value → String
  | .str s => s
  | .int n => toString n
  | .bool b => if b then "True" else "False"
  | v => pyRepr v

/-- The custom-validator step of `validate_hash_parameter`: an absent
validator passes, a present one raises on invalid input. -/
def validator_check (parameter : HashParameter) (value : Value) : Except PyErr Unit :=
  match parameter.validator with
  | some validate => validate value
  | none => .ok ()

/-- The `min_length` check of `validate_hash_parameter`. -/
def check_min_length (parameter : HashParameter) (name : String) (value : Value) :
    Except PyErr Unit :=
  match parameter.min_length with
  | none => .ok ()
  | some min_length =>
    match pyLen value with
    | .error e => .error e
    | .ok n =>
      if n < min_length then
        .error (.valueError ("Length of parameter " ++ name ++ " cannot be less than " ++
          toString min_length ++ ": " ++ pyRepr value))
      else .ok ()

/-- The `max_length` check of `validate_hash_parameter`. -/
def check_max_length (parameter : HashParameter) (name : String) (value : Value) :
    Except PyErr Unit :=
  match parameter.max_length with
  | none => .ok ()
  | some max_length =>
    match pyLen value with
    | .error e => .error e
    | .ok n =>
      if n > max_length then
        .error (.valueError ("Length of parameter " ++ name ++ " cannot be greater than " ++
          toString max_length ++ ": " ++ pyRepr value))
      else .ok ()

/-- The `min_value` check of `validate_hash_parameter`. -/
def check_min_value (parameter : HashParameter) (name : String) (value : Value) :
    Except PyErr Unit :=
  match parameter.min_value with
  | none => .ok ()
  | some min_value =>
    match pyLt value min_value with
    | .error e => .error e
    | .ok lt =>
      if lt then
        .error (.valueError ("Value of parameter " ++ name ++ " cannot be less than " ++
          pyStr min_value ++ ": " ++ pyRepr value))
      else .ok ()

/-- The `max_value` check of `validate_hash_parameter`. -/
def check_max_value (parameter : HashParameter) (name : String) (value : Value) :
    Except PyErr Unit :=
  match parameter.max_value with
  | none => .ok ()
  | some max_value =>
    match pyLt max_value value with
    | .error e => .error e
    | .ok gt =>
      if gt then
        .error (.valueError ("Value of parameter " ++ name ++ " cannot be greater than " ++
          pyStr max_value ++ ": " ++ pyRepr value))
      else .ok ()

/-- Embedding of `validate_hash_parameter`: type coercion, then the custom
validator, then the length bounds, then the value bounds, in the source's
order, each raising at the first violation; the coerced value is returned.
The message of the coercion failure shows the original value, the later
messages the coerced one, as in the source. -/
def validate_hash_parameter (parameter : HashParameter) (name : String) (value : Value) :
    Except PyErr Value :=
  match parameter.type value with
  | none => .error (.valueError ("Invalid value for parameter " ++ name ++ ": " ++ pyRepr value))
  | some value =>
    match validator_check parameter value with
    | .error e => .error e
    | .ok _ =>
      match check_min_length parameter name value with
      | .error e => .error e
      | .ok _ =>
        match check_max_length parameter name value with
        | .error e => .error e
        | .ok _ =>
          match check_min_value parameter name value with
          | .error e => .error e
          | .ok _ =>
            match check_max_value parameter name value with
            | .error e => .error e
            | .ok _ => .ok value

/-- Embedding of the parameter loop of `hash_password`: for each declared
parameter present in `rp`, pop it, validate it and record it under the
scheme's native keyword. -/
def process_hash_parameters (params : List (String × HashParameter)) (builder_kw : Dict)
    (st : Store) : PyResult Dict :=
  match params with
  | [] => .ret builder_kw st
  | (parameter_name, parameter) :: rest =>
    if st.rp.hasKey parameter_name then
      let parameter_value := (st.rp.getVal parameter_name).getD default
      let st := { st with rp := st.rp.erase parameter_name }
      match validate_hash_parameter parameter parameter_name parameter_value with
      | .error e => .raise e st
      | .ok parameter_value =>
        process_hash_parameters rest
          (builder_kw ++ [(parameter.algorithm_parameter, parameter_value)]) st
    else process_hash_parameters rest builder_kw st

/-- The password-source branch of `hash_password`: the plaintext helper
when `PlaintextPassword` is present, the ciphertext helper otherwise. -/
def password_source (env : Env) (st : Store) : PyResult String :=
  if st.rp.hasKey "PlaintextPassword" then handle_plaintext_password_hash_params st
  else handle_ciphertext_password_hash_params env st

/-- Embedding of `hash_password` (`Custom::HashPassword`). -/
def hash_password (env : Env) (event : Event) : PyResult (Option Dict) :=
  let st := initStore event
  if ¬(event.requestType = "Create" ∨ event.requestType = "Update") then .ret none st
  else
    let st := { st with rp := dictCopy st.eventProps }
    if st.rp.hasKey "PlaintextPassword" && st.rp.hasKey "CiphertextBase64Password" then
      .raise (.valueError
        "PlaintextPassword and CiphertextBase64Password are mutually exclusive") st
    else if !st.rp.hasKey "PlaintextPassword" && !st.rp.hasKey "CiphertextBase64Password" then
      .raise (.valueError
        "Either PlaintextPassword or CiphertextBase64Password must be specified") st
    else
      match password_source env st with
      | .raise e st => .raise e st
      | .ret plaintext_password st =>
        match get_hash_algorithm env st with
        | .raise e st => .raise e st
        | .ret algorithm st =>
          match process_hash_parameters algorithm.parameters [] st with
          | .raise e st => .raise e st
          | .ret builder_kw st =>
            let st := { st with rp := st.rp.erase "ServiceToken" }
            if !st.rp.isEmpty then
              .raise (.valueError ("Unknown parameters: " ++
                commaJoin (stableSort pyStrLe (st.rp.map Prod.fst)))) st
            else
              .ret (some [("Hash", .str (algorithm.algorithm builder_kw plaintext_password))]) st

/-- Embedding of `secure_random` (`Custom::SecureRandom`).  The `try`
block catches only `ValueError`, so a `TypeError` from `int(...)`
propagates; on a caught `ValueError` the message shows the value `size`
holds at that point (converted when the conversion succeeded). -/
def secure_random (env : Env) (event : Event) : PyResult (Option Dict) :=
  let st := initStore event
  if ¬(event.requestType = "Create" ∨ event.requestType = "Update") then .ret none st
  else
    match st.eventProps.getVal "Size" with
    | none => .raise (.keyError "Size") st
    | some size =>
      match pyInt size with
      | .error (.valueError _) =>
        .raise (.valueError ("Invalid size parameter: " ++ pyRepr size)) st
      | .error e => .raise e st
      | .ok n =>
        if n ≤ 0 then .raise (.valueError ("Invalid size parameter: " ++ pyRepr (.int n))) st
        else
          let result := env.urandom n.toNat
          .ret (some [("Raw", .str (isoDecode result)),
                      ("Hex", .str (String.mk (hexEncode result))),
                      ("Base64", .str (b64Encode result))]) st

/-- Embedding of `api_gateway_binary` (`Custom::ApiGatewayBinary`); the
`update_rest_api` patch calls are external effects with no data flowing
back into the handler, which always returns `None`. -/
def api_gateway_binary (env : Env) (event : Event) : PyResult (Option Dict) :=
  let st := initStore event
  match st.eventProps.getVal "RestApiId" with
  | none => .raise (.keyError "RestApiId") st
  | some rest_api_id =>
    let rest_api_info := env.apigwGetRestApi rest_api_id
    let binary_enabled :=
      match rest_api_info.getVal "binaryMediaTypes" with
      | some (.list l) => l.any (fun v => valueEqStr v "*/*")
      | _ => false
    let _ := binary_enabled
    .ret none st

/-- The handler registry, in the source's order. -/
def handlers : List (String × Handler) :=
  [("Custom::ApiGatewayBinary", api_gateway_binary),
   ("Custom::FindImage", find_image),
   ("Custom::GeneratePassword", generate_password),
   ("Custom::HashPassword", hash_password),
   ("Custom::SecureRandom", secure_random)]

/-- Registry lookup `handlers.get(event["ResourceType"])`. -/
def handlersGet (resourceType : String) : Option Handler :=
  (handlers.find? (fun p => p.1 == resourceType)).map (·.2)

/-- Embedding of `lambda_handler`: assemble the envelope, dispatch, catch
any raised exception, and deliver the envelope to the event's
`ResponseURL` (the returned string is the URL the `PUT` goes to). -/
def lambda_handler (env : Env) (event : Event) : Envelope × String :=
  let body : Envelope :=
    { status := "FAILED", reason := some "Unknown error",
      stackId := event.stackId, requestId := event.requestId,
      logicalResourceId := event.logicalResourceId,
      physicalResourceId := none, data := none }
  let body :=
    match event.physicalResourceId with
    | some p => { body with physicalResourceId := some (.str p) }
    | none => body
  let body :=
    match handlersGet event.resourceType with
    | none => { body with reason := some ("Unknown resource type " ++ event.resourceType) }
    | some handler =>
      match handler env event with
      | .ret dataOpt _ =>
        let data := dataOpt.getD []
        let body :=
          match data.getVal "PhysicalResourceId" with
          | some p => { body with physicalResourceId := some p }
          | none => body
        let data := data.erase "PhysicalResourceId"
        { body with status := "SUCCESS", reason := none, data := some data }
      | .raise e _ => { body with reason := some e.str }
  let body :=
    if body.physicalResourceId.isNone then
      { body with physicalResourceId := some (.str env.uuid) }
    else body
  (body, event.responseURL)

/-- Final state of the mutable objects of a run. -/
def PyResult.store : PyResult α → Store
  | .ret _ st => st
  | .raise _ st => st

/-- The exception a run raised, if any. -/
def PyResult.raised : PyResult α → Option PyErr
  | .ret _ _ => none
  | .raise e _ => some e

/-- Modelled from the spec: `iso8601.parse_date` is an external library
whose parses of ISO-8601 timestamps order chronologically; for standard
`YYYY-MM-DDTHH:MM:SSZ` timestamps the fold of the digits has that order,
which is all the concrete examples use (the general theorems hold for
every parse function). -/
def parseDateModel (s : String) : Int :=
  (((s.data.filter Char.isDigit).foldl (fun n c => 10 * n + (c.toNat - 48)) 0 : Nat) : Int)

/-- Modelled from the spec: an outcome of the name/description filtering
step (`amifilter.filter_names_and_descriptions`, not under `src/`) in
which every image is removed, the scenario the no-match claim quantifies
over. -/
def filterRemovesAll : List Image → Dict → List Image := fun _ _ => []

/-- Example image A of the spec's ranking example. -/
def imgA : Image :=
  { imageId := "ami-a", creationDate := "2020-01-01T00:00:00Z",
    virtualizationType := "hvm", rootDeviceType := "ebs" }

/-- Example image B of the spec's ranking example. -/
def imgB : Image :=
  { imageId := "ami-b", creationDate := "2021-01-01T00:00:00Z",
    virtualizationType := "hvm", rootDeviceType := "ebs" }

/-- The coercion a parameter declared with `type=int` carries: `int(...)`
with `TypeError`/`ValueError` treated as coercion failure. -/
def intCoerce (v : Value) : Option Value :=
  match pyInt v with
  | .ok n => some (.int n)
  | .error _ => none

/-- Example declared parameter: an integer rounds count bounded to
`[4, 31]`. -/
def roundsParam : HashParameter :=
  { algorithm_parameter := "rounds", type := intCoerce, validator := none,
    min_length := none, max_length := none,
    min_value := some (.int 4), max_value := some (.int 31) }

/-- Example registry entry flagged insecure. -/
def insecureAlg : HashAlgorithm :=
  { is_secure := false, parameters := [], algorithm := fun _ pw => "insecure-" ++ pw }

/-- Example registry entry flagged secure, with one declared parameter. -/
def secureAlg : HashAlgorithm :=
  { is_secure := true, parameters := [("Rounds", roundsParam)],
    algorithm := fun kw pw => "h" ++ toString kw.length ++ "-" ++ pw }

/-- A concrete environment for the examples: benign collaborators, the
image lookup empty, a two-entry hash registry. -/
def baseEnv : Env :=
  { uuid := "00000000-0000-0000-0000-000000000000",
    parseDate := parseDateModel,
    addFilters := fun rp => (rp, []),
    describeImages := fun _ _ => [],
    filterNamesAndDescriptions := fun images _ => images,
    genword := fun _ => "password",
    genphrase := fun _ => "pass phrase",
    kmsEncrypt := fun _ _ _ => [],
    kmsDecrypt := fun _ _ => .ok "password",
    apigwGetRestApi := fun _ => [],
    hashAlgorithms := fun n =>
      if n = "des_crypt" then some insecureAlg
      else if n = "pbkdf2_sha256" then some secureAlg
      else none,
    urandom := fun n => List.range n }

/-- Environment whose image lookup returns the spec example's two images. -/
def envC2 : Env := { baseEnv with describeImages := fun _ _ => [imgA, imgB] }

/-- Environment whose image lookup returns one image that the
name/description filtering then removes. -/
def envC3 : Env :=
  { baseEnv with describeImages := fun _ _ => [imgA],
                 filterNamesAndDescriptions := filterRemovesAll }

/-- A `Custom::FindImage` create event with an owner and no preferences. -/
def findImageEvent : Event :=
  { requestType := "Create", resourceType := "Custom::FindImage",
    resourceProperties := [("Owner", .str "amazon")],
    stackId := "stack-1", requestId := "req-1", logicalResourceId := "res-1",
    responseURL := "https://example.invalid/cb", physicalResourceId := none }

/-- A `Custom::FindImage` create event with no `Owner` property. -/
def findImageEventNoOwner : Event :=
  { requestType := "Create", resourceType := "Custom::FindImage",
    resourceProperties := [],
    stackId := "stack-1", requestId := "req-1", logicalResourceId := "res-1",
    responseURL := "https://example.invalid/cb", physicalResourceId := none }

/-- A `Custom::HashPassword` event supplying both password sources. -/
def hashBothEvent : Event :=
  { requestType := "Create", resourceType := "Custom::HashPassword",
    resourceProperties := [("PlaintextPassword", .str "pw"),
                           ("CiphertextBase64Password", .str "cHc=")],
    stackId := "stack-1", requestId := "req-1", logicalResourceId := "res-1",
    responseURL := "https://example.invalid/cb", physicalResourceId := none }

/-- A `Custom::HashPassword` event supplying neither password source. -/
def hashNeitherEvent : Event :=
  { requestType := "Update", resourceType := "Custom::HashPassword",
    resourceProperties := [("Scheme", .str "pbkdf2-sha256")],
    stackId := "stack-1", requestId := "req-1", logicalResourceId := "res-1",
    responseURL := "https://example.invalid/cb", physicalResourceId := none }

/-- A `Custom::HashPassword` event with two unrecognized properties. -/
def hashUnknownEvent : Event :=
  { requestType := "Create", resourceType := "Custom::HashPassword",
    resourceProperties := [("PlaintextPassword", .str "pw"),
                           ("Scheme", .str "pbkdf2-sha256"),
                           ("Zebra", .int 1),
                           ("Alpha", .int 2),
                           ("ServiceToken", .str "token"),
                           ("Rounds", .int 10)],
    stackId := "stack-1", requestId := "req-1", logicalResourceId := "res-1",
    responseURL := "https://example.invalid/cb", physicalResourceId := none }

/-- A `Custom::HashPassword` event with every property recognized. -/
def hashCleanEvent : Event :=
  { requestType := "Create", resourceType := "Custom::HashPassword",
    resourceProperties := [("PlaintextPassword", .str "pw"),
                           ("Scheme", .str "pbkdf2-sha256"),
                           ("Rounds", .int 10),
                           ("ServiceToken", .str "token")],
    stackId := "stack-1", requestId := "req-1", logicalResourceId := "res-1",
    responseURL := "https://example.invalid/cb", physicalResourceId := none }

/-- A `Custom::SecureRandom` create event asking for 16 bytes. -/
def secureRandomEvent : Event :=
  { requestType := "Create", resourceType := "Custom::SecureRandom",
    resourceProperties := [("Size", .int 16)],
    stackId := "stack-1", requestId := "req-1", logicalResourceId := "res-1",
    responseURL := "https://example.invalid/cb", physicalResourceId := none }

/-- A delete event against `Custom::SecureRandom` with an invalid `Size`,
which delete-time handlers never look at. -/
def deleteEvent : Event :=
  { requestType := "Delete", resourceType := "Custom::SecureRandom",
    resourceProperties := [("Size", .str "oops")],
    stackId := "stack-1", requestId := "req-1", logicalResourceId := "res-1",
    responseURL := "https://example.invalid/cb", physicalResourceId := some "phys-1" }

/-- Store of a `get_hash_algorithm` example: an insecure scheme requested
without `AllowInsecure`. -/
def storeInsecureNoAllow : Store :=
  { eventProps := [], rp := [("Scheme", .str "des-crypt")] }

/-- Store of a `get_hash_algorithm` example: an insecure scheme requested
with `AllowInsecure="true"`. -/
def storeInsecureAllow : Store :=
  { eventProps := [], rp := [("Scheme", .str "des-crypt"), ("AllowInsecure", .str "true")] }

/-- A `Custom::SecureRandom` create event with a non-numeric `Size`. -/
def badSizeEvent : Event :=
  { requestType := "Create", resourceType := "Custom::SecureRandom",
    resourceProperties := [("Size", .str "oops")],
    stackId := "stack-1", requestId := "req-1", logicalResourceId := "res-1",
    responseURL := "https://example.invalid/cb", physicalResourceId := none }

theorem mem_stableInsert (le : α → α → Bool) (a x : α) (l : List α) :
    x ∈ stableInsert le a l ↔ x = a ∨ x ∈ l := by
  induction l with
  | nil => simp [stableInsert]
  | cons b l ih =>
    by_cases h : le a b
    · simp [stableInsert, h]
    · simp only [stableInsert, if_neg h, List.mem_cons, ih]
      tauto

theorem stableInsert_perm (le : α → α → Bool) (a : α) (l : List α) :
    (stableInsert le a l).Perm (a :: l) := by
  induction l with
  | nil => simp [stableInsert]
  | cons b l ih =>
    by_cases h : le a b
    · simp [stableInsert, h]
    · simp only [stableInsert, if_neg h]
      exact (ih.cons b).trans (List.Perm.swap a b l)

theorem stableSort_perm (le : α → α → Bool) (l : List α) :
    (stableSort le l).Perm l := by
  induction l with
  | nil => simp [stableSort]
  | cons a l ih =>
    exact (stableInsert_perm le a (stableSort le l)).trans (ih.cons a)

theorem pairwise_stableInsert (le : α → α → Bool)
    (htrans : ∀ a b c, le a b = true → le b c = true → le a c = true)
    (htotal : ∀ a b, le a b = true ∨ le b a = true)
    (a : α) (l : List α) :
    l.Pairwise (fun x y => le x y = true) →
      (stableInsert le a l).Pairwise (fun x y => le x y = true) := by
  induction l with
  | nil =>
    intro _
    simp [stableInsert]
  | cons b l ih =>
    intro hl
    rw [List.pairwise_cons] at hl
    by_cases h : le a b
    · simp only [stableInsert, if_pos h, List.pairwise_cons]
      refine ⟨?_, hl⟩
      intro x hx
      rcases List.mem_cons.mp hx with hx | hx
      · subst hx
        exact h
      · exact htrans a b x h (hl.1 x hx)
    · simp only [stableInsert, if_neg h, List.pairwise_cons]
      refine ⟨?_, ih hl.2⟩
      intro x hx
      rcases (mem_stableInsert le a x l).mp hx with hx | hx
      · rcases htotal a b with hab | hba
        · exact absurd hab h
        · rw [hx]
          exact hba
      · exact hl.1 x hx

theorem pairwise_stableSort (le : α → α → Bool)
    (htrans : ∀ a b c, le a b = true → le b c = true → le a c = true)
    (htotal : ∀ a b, le a b = true ∨ le b a = true)
    (l : List α) :
    (stableSort le l).Pairwise (fun x y => le x y = true) := by
  induction l with
  | nil => simp [stableSort]
  | cons a l ih => exact pairwise_stableInsert le htrans htotal a _ ih

theorem key_le_total (a b : Bool × Bool × Int) : key_le a b = true ∨ key_le b a = true := by
  rcases a with ⟨a1, a2, a3⟩
  rcases b with ⟨b1, b2, b3⟩
  cases a1 <;> cases b1 <;> cases a2 <;> cases b2 <;> simp [key_le] <;> omega

theorem key_le_trans (a b c : Bool × Bool × Int) (hab : key_le a b = true)
    (hbc : key_le b c = true) : key_le a c = true := by
  rcases a with ⟨a1, a2, a3⟩
  rcases b with ⟨b1, b2, b3⟩
  rcases c with ⟨c1, c2, c3⟩
  cases a1 <;> cases b1 <;> cases c1 <;> cases a2 <;> cases b2 <;> cases c2 <;>
    simp_all [key_le] <;> omega

theorem eventProps_handle_plaintext (st : Store) :
    ((handle_plaintext_password_hash_params st).store).eventProps = st.eventProps := by
  unfold handle_plaintext_password_hash_params
  split
  · rfl
  · dsimp only
    split <;> rfl

theorem eventProps_handle_ciphertext (env : Env) (st : Store) :
    ((handle_ciphertext_password_hash_params env st).store).eventProps = st.eventProps := by
  unfold handle_ciphertext_password_hash_params
  split
  · rfl
  · dsimp only
    split
    · split
      · rfl
      · split
        · rfl
        · split <;> rfl
    · rfl

theorem eventProps_password_source (env : Env) (st : Store) :
    ((password_source env st).store).eventProps = st.eventProps := by
  unfold password_source
  split
  · exact eventProps_handle_plaintext st
  · exact eventProps_handle_ciphertext env st

theorem eventProps_get_hash_algorithm (env : Env) (st : Store) :
    ((get_hash_algorithm env st).store).eventProps = st.eventProps := by
  unfold get_hash_algorithm
  dsimp only
  split
  · rfl
  · split
    · rfl
    · split
      · rfl
      · split
        · rfl
        · split <;> rfl
    · rfl

theorem eventProps_process_hash_parameters (params : List (String × HashParameter))
    (builder_kw : Dict) (st : Store) :
    ((process_hash_parameters params builder_kw st).store).eventProps = st.eventProps := by
  induction params generalizing builder_kw st with
  | nil => rfl
  | cons p rest ih =>
    unfold process_hash_parameters
    rcases p with ⟨parameter_name, parameter⟩
    dsimp only
    split
    · split
      · rfl
      · exact ih _ _
    · exact ih _ _

theorem eventProps_find_image (env : Env) (event : Event) :
    ((find_image env event).store).eventProps = event.resourceProperties := by
  unfold find_image
  repeat' first | rfl | split | dsimp only

theorem eventProps_generate_password (env : Env) (event : Event) :
    ((generate_password env event).store).eventProps = event.resourceProperties := by
  unfold generate_password
  repeat' first | rfl | split | dsimp only

theorem eventProps_hash_password (env : Env) (event : Event) :
    ((hash_password env event).store).eventProps = event.resourceProperties := by
  unfold hash_password initStore
  dsimp only
  split
  · rfl
  · split
    · rfl
    · split
      · rfl
      · generalize hps :
          password_source env
            { eventProps := event.resourceProperties, rp := dictCopy event.resourceProperties } = r1
        have hsrc : (r1.store).eventProps = event.resourceProperties := by
          rw [← hps]
          exact eventProps_password_source env _
        cases r1 with
        | raise e st => exact hsrc
        | ret pw st =>
          dsimp only
          generalize hga : get_hash_algorithm env st = r2
          have halg : (r2.store).eventProps = event.resourceProperties := by
            rw [← hga]
            exact (eventProps_get_hash_algorithm env st).trans hsrc
          cases r2 with
          | raise e st2 => exact halg
          | ret algorithm st2 =>
            dsimp only
            generalize hpr : process_hash_parameters algorithm.parameters [] st2 = r3
            have hpp : (r3.store).eventProps = event.resourceProperties := by
              rw [← hpr]
              exact (eventProps_process_hash_parameters _ _ st2).trans halg
            cases r3 with
            | raise e st3 => exact hpp
            | ret builder_kw st3 =>
              dsimp only
              split
              · exact hpp
              · exact hpp

theorem eventProps_secure_random (env : Env) (event : Event) :
    ((secure_random env event).store).eventProps = event.resourceProperties := by
  unfold secure_random
  repeat' first | rfl | split | dsimp only

theorem eventProps_api_gateway_binary (env : Env) (event : Event) :
    ((api_gateway_binary env event).store).eventProps = event.resourceProperties := by
  unfold api_gateway_binary
  dsimp only
  split <;> rfl

theorem char_toNat_ofNat_of_lt (b : Nat) (h : b < 256) : (Char.ofNat b).toNat = b := by
  unfold Char.ofNat
  rw [dif_pos]
  · rfl
  · unfold Nat.isValidChar
    omega

theorem isoDecode_codes (bs : Bytes) (h : ∀ b ∈ bs, b < 256) :
    (isoDecode bs).data.map Char.toNat = bs := by
  unfold isoDecode
  induction bs with
  | nil => rfl
  | cons b rest ih =>
    simp only [List.map_cons]
    rw [char_toNat_ofNat_of_lt b (h b (by simp))]
    rw [ih (fun x hx => h x (by simp [hx]))]

theorem isoDecode_length (bs : Bytes) : (isoDecode bs).length = bs.length := by
  unfold isoDecode
  simp [String.length]

theorem hexVal_hexDigit : ∀ d < 16, hexVal (hexDigit d) = some d := by decide

theorem hexDigit_mem : ∀ d < 16, hexDigit d ∈ hexChars := by decide

theorem hexEncode_length (bs : Bytes) : (hexEncode bs).length = 2 * bs.length := by
  induction bs with
  | nil => rfl
  | cons b rest ih =>
    simp only [hexEncode, List.length_cons, ih]
    omega

theorem hexEncode_mem (bs : Bytes) (h : ∀ b ∈ bs, b < 256) :
    ∀ c ∈ hexEncode bs, c ∈ hexChars := by
  induction bs with
  | nil =>
    intro c hc
    cases hc
  | cons b rest ih =>
    intro c hc
    have hb : b < 256 := h b (by simp)
    rcases hc with _ | ⟨_, hc⟩
    · exact hexDigit_mem (b / 16) (by omega)
    · rcases hc with _ | ⟨_, hc⟩
      · exact hexDigit_mem (b % 16) (by omega)
      · exact ih (fun x hx => h x (by simp [hx])) c hc

theorem hexDecode_hexEncode (bs : Bytes) (h : ∀ b ∈ bs, b < 256) :
    hexDecode (hexEncode bs) = some bs := by
  induction bs with
  | nil => rfl
  | cons b rest ih =>
    have hb : b < 256 := h b (by simp)
    simp only [hexEncode, hexDecode]
    rw [hexVal_hexDigit (b / 16) (by omega), hexVal_hexDigit (b % 16) (by omega)]
    rw [ih (fun x hx => h x (by simp [hx]))]
    have : 16 * (b / 16) + b % 16 = b := by omega
    simp [this]

theorem b64Val_b64Char : ∀ v < 64, b64Val (b64Char v) = some v := by decide

theorem b64Char_ne_pad : ∀ v < 64, b64Char v ≠ '=' := by decide

theorem b64DecodeChars_b64EncodeChars (bs : Bytes) (h : ∀ b ∈ bs, b < 256) :
    b64DecodeChars (b64EncodeChars bs) = some bs := by
  induction bs using b64EncodeChars.induct with
  | case1 => rfl
  | case2 b0 =>
    have hb0 : b0 < 256 := h b0 (by simp)
    have h1 : b64Val (b64Char (b0 / 4)) = some (b0 / 4) := b64Val_b64Char _ (by omega)
    have h2 : b64Val (b64Char (b0 % 4 * 16)) = some (b0 % 4 * 16) := b64Val_b64Char _ (by omega)
    simp [b64EncodeChars, b64DecodeChars, h1, h2]
    omega
  | case3 b0 b1 =>
    have hb0 : b0 < 256 := h b0 (by simp)
    have hb1 : b1 < 256 := h b1 (by simp)
    have h1 : b64Val (b64Char (b0 / 4)) = some (b0 / 4) := b64Val_b64Char _ (by omega)
    have h2 : b64Val (b64Char (b0 % 4 * 16 + b1 / 16)) = some (b0 % 4 * 16 + b1 / 16) :=
      b64Val_b64Char _ (by omega)
    have h3 : b64Val (b64Char (b1 % 16 * 4)) = some (b1 % 16 * 4) := b64Val_b64Char _ (by omega)
    have hne : b64Char (b1 % 16 * 4) ≠ '=' := b64Char_ne_pad _ (by omega)
    simp [b64EncodeChars, b64DecodeChars, h1, h2, h3, hne]
    omega
  | case4 b0 b1 b2 rest ih =>
    have hb0 : b0 < 256 := h b0 (by simp)
    have hb1 : b1 < 256 := h b1 (by simp)
    have hb2 : b2 < 256 := h b2 (by simp)
    have h1 : b64Val (b64Char (b0 / 4)) = some (b0 / 4) := b64Val_b64Char _ (by omega)
    have h2 : b64Val (b64Char (b0 % 4 * 16 + b1 / 16)) = some (b0 % 4 * 16 + b1 / 16) :=
      b64Val_b64Char _ (by omega)
    have h3 : b64Val (b64Char (b1 % 16 * 4 + b2 / 64)) = some (b1 % 16 * 4 + b2 / 64) :=
      b64Val_b64Char _ (by omega)
    have h4 : b64Val (b64Char (b2 % 64)) = some (b2 % 64) := b64Val_b64Char _ (by omega)
    have hne2 : b64Char (b1 % 16 * 4 + b2 / 64) ≠ '=' := b64Char_ne_pad _ (by omega)
    have hne3 : b64Char (b2 % 64) ≠ '=' := b64Char_ne_pad _ (by omega)
    have hrest := ih (fun x hx => h x (by simp [hx]))
    simp [b64EncodeChars, b64DecodeChars, h1, h2, h3, h4, hne2, hne3, hrest]
    omega

theorem b64Decode_b64Encode (bs : Bytes) (h : ∀ b ∈ bs, b < 256) :
    b64Decode (b64Encode bs) = some bs :=
  b64DecodeChars_b64EncodeChars bs h

/-- C1: for every lifecycle event whose `ResourceType` matches a
registered handler, if the handler raises any exception `e` then
`lambda_handler` assembles an envelope with status `FAILED`, `Reason`
equal to `str(e)` and no `Data` key, and still delivers it to the event's
`ResponseURL`; `lambda_handler` is total, so the exception never
escapes. -/
theorem lambda_handler_handler_exception (env : Env) (event : Event) (h : Handler)
    (e : PyErr) (st : Store)
    (hh : handlersGet event.resourceType = some h)
    (hr : h env event = .raise e st) :
    (lambda_handler env event).1.status = "FAILED" ∧
    (lambda_handler env event).1.reason = some e.str ∧
    (lambda_handler env event).1.data = none ∧
    (lambda_handler env event).2 = event.responseURL := by
  unfold lambda_handler
  rw [hh]
  dsimp only
  rw [hr]
  cases event.physicalResourceId <;> simp

/-- Witness for C1: a `Custom::FindImage` event with no `Owner` makes the
handler raise, and the dispatcher reports exactly that failure to the
callback URL. -/
theorem lambda_handler_handler_exception_witness :
    (lambda_handler baseEnv findImageEventNoOwner).1.status = "FAILED" ∧
    (lambda_handler baseEnv findImageEventNoOwner).1.reason = some "Owner must be specified" ∧
    (lambda_handler baseEnv findImageEventNoOwner).1.data = none ∧
    (lambda_handler baseEnv findImageEventNoOwner).2 = findImageEventNoOwner.responseURL :=
  lambda_handler_handler_exception baseEnv findImageEventNoOwner find_image
    (.valueError "Owner must be specified") { eventProps := [], rp := [] } rfl rfl

/-- C10: for every registered handler and every lifecycle event, the
event's `ResourceProperties` object is unchanged after the handler runs:
the popping handlers consume keys only from the fresh copy
`dict(event["ResourceProperties"])`, and the others only read. -/
theorem handlers_preserve_resource_properties (env : Env) (event : Event)
    (p : String × Handler) (hp : p ∈ handlers) :
    (((p.2 env event).store).eventProps) = event.resourceProperties := by
  simp only [handlers, List.mem_cons, List.not_mem_nil, or_false] at hp
  rcases hp with h | h | h | h | h <;> rw [h]
  · exact eventProps_api_gateway_binary env event
  · exact eventProps_find_image env event
  · exact eventProps_generate_password env event
  · exact eventProps_hash_password env event
  · exact eventProps_secure_random env event

/-- Witness for C10: the `Custom::HashPassword` handler, which pops many
keys, leaves a concrete event's properties intact. -/
theorem handlers_preserve_resource_properties_witness :
    (((hash_password baseEnv hashCleanEvent).store).eventProps) =
      hashCleanEvent.resourceProperties :=
  handlers_preserve_resource_properties baseEnv hashCleanEvent
    ("Custom::HashPassword", hash_password) (by simp [handlers])

/-- C4: when `hash_password` resolves a scheme whose descriptor is marked
insecure, an `AllowInsecure` that evaluates to false (also when absent,
the popped default) makes `get_hash_algorithm` raise the insecurity
error, while an `AllowInsecure` evaluating to true makes it return the
descriptor. -/
theorem get_hash_algorithm_insecure_gate (env : Env) (st : Store) (s : String)
    (alg : HashAlgorithm)
    (hs : st.rp.getVal "Scheme" = some (.str s))
    (hne : s ≠ "")
    (halg : env.hashAlgorithms (hyphenToUnderscore s) = some alg)
    (hinsec : alg.is_secure = false) :
    (coerce_allow_insecure (((st.rp.erase "Scheme").getVal "AllowInsecure").getD (.bool false)) =
        .ok false →
      get_hash_algorithm env st =
        .raise (.valueError ("Scheme " ++ s ++ " is insecure and AllowInsecure was not specified"))
          { st with rp := (st.rp.erase "Scheme").erase "AllowInsecure" }) ∧
    (coerce_allow_insecure (((st.rp.erase "Scheme").getVal "AllowInsecure").getD (.bool false)) =
        .ok true →
      get_hash_algorithm env st =
        .ret alg { st with rp := (st.rp.erase "Scheme").erase "AllowInsecure" }) := by
  constructor
  · intro hc
    unfold get_hash_algorithm
    dsimp only
    rw [hc, hs]
    dsimp only
    rw [if_neg hne, halg]
    simp [hinsec]
  · intro hc
    unfold get_hash_algorithm
    dsimp only
    rw [hc, hs]
    dsimp only
    rw [if_neg hne, halg]
    simp [hinsec]

/-- Witness for C4: the registry's `des_crypt` entry is insecure; without
`AllowInsecure` the request fails with the insecurity error, with
`AllowInsecure="true"` it resolves to the descriptor. -/
theorem get_hash_algorithm_insecure_gate_witness :
    get_hash_algorithm baseEnv storeInsecureNoAllow =
      .raise (.valueError "Scheme des-crypt is insecure and AllowInsecure was not specified")
        { eventProps := [], rp := [] } ∧
    get_hash_algorithm baseEnv storeInsecureAllow =
      .ret insecureAlg { eventProps := [], rp := [] } :=
  ⟨(get_hash_algorithm_insecure_gate baseEnv storeInsecureNoAllow "des-crypt" insecureAlg
      rfl (by decide) rfl rfl).1 rfl,
   (get_hash_algorithm_insecure_gate baseEnv storeInsecureAllow "des-crypt" insecureAlg
      rfl (by decide) rfl rfl).2 rfl⟩

/-- C5: on a Create/Update `hash_password` request, supplying both
`PlaintextPassword` and `CiphertextBase64Password` raises the
mutual-exclusion error and supplying neither raises the missing-input
error. -/
theorem hash_password_source_exclusive (env : Env) (event : Event)
    (hrt : event.requestType = "Create" ∨ event.requestType = "Update") :
    (event.resourceProperties.hasKey "PlaintextPassword" = true →
     event.resourceProperties.hasKey "CiphertextBase64Password" = true →
      hash_password env event =
        .raise (.valueError "PlaintextPassword and CiphertextBase64Password are mutually exclusive")
          { eventProps := event.resourceProperties, rp := event.resourceProperties }) ∧
    (event.resourceProperties.hasKey "PlaintextPassword" = false →
     event.resourceProperties.hasKey "CiphertextBase64Password" = false →
      hash_password env event =
        .raise (.valueError "Either PlaintextPassword or CiphertextBase64Password must be specified")
          { eventProps := event.resourceProperties, rp := event.resourceProperties }) := by
  have hguard : ¬¬(event.requestType = "Create" ∨ event.requestType = "Update") :=
    not_not_intro hrt
  constructor
  · intro h1 h2
    unfold hash_password initStore dictCopy
    rw [if_neg hguard]
    dsimp only
    rw [h1, h2]
    simp
  · intro h1 h2
    unfold hash_password initStore dictCopy
    rw [if_neg hguard]
    dsimp only
    rw [h1, h2]
    simp

/-- Witness for C5: concrete events supplying both sources and neither
source fail with the two validation errors. -/
theorem hash_password_source_exclusive_witness :
    hash_password baseEnv hashBothEvent =
      .raise (.valueError "PlaintextPassword and CiphertextBase64Password are mutually exclusive")
        { eventProps := hashBothEvent.resourceProperties,
          rp := hashBothEvent.resourceProperties } ∧
    hash_password baseEnv hashNeitherEvent =
      .raise (.valueError "Either PlaintextPassword or CiphertextBase64Password must be specified")
        { eventProps := hashNeitherEvent.resourceProperties,
          rp := hashNeitherEvent.resourceProperties } :=
  ⟨(hash_password_source_exclusive baseEnv hashBothEvent (Or.inl rfl)).1 rfl rfl,
   (hash_password_source_exclusive baseEnv hashNeitherEvent (Or.inr rfl)).2 rfl rfl⟩

/-- C6: `validate_hash_parameter` runs type coercion, then the custom
validator, then the length bounds, then the value bounds, in that order,
failing fast at the first violated check with a message naming the
parameter and the offending value; a value passing every check is
returned coerced. -/
theorem validate_hash_parameter_order (parameter : HashParameter) (name : String)
    (value : Value) :
    (parameter.type value = none →
      validate_hash_parameter parameter name value =
        .error (.valueError ("Invalid value for parameter " ++ name ++ ": " ++ pyRepr value))) ∧
    (∀ v e, parameter.type value = some v →
      validator_check parameter v = .error e →
      validate_hash_parameter parameter name value = .error e) ∧
    (∀ v n m, parameter.type value = some v →
      validator_check parameter v = .ok () →
      parameter.min_length = some m → pyLen v = .ok n → n < m →
      validate_hash_parameter parameter name value =
        .error (.valueError ("Length of parameter " ++ name ++ " cannot be less than " ++
          toString m ++ ": " ++ pyRepr v))) ∧
    (∀ v n m, parameter.type value = some v →
      validator_check parameter v = .ok () →
      check_min_length parameter name v = .ok () →
      parameter.max_length = some m → pyLen v = .ok n → n > m →
      validate_hash_parameter parameter name value =
        .error (.valueError ("Length of parameter " ++ name ++ " cannot be greater than " ++
          toString m ++ ": " ++ pyRepr v))) ∧
    (∀ v mv, parameter.type value = some v →
      validator_check parameter v = .ok () →
      check_min_length parameter name v = .ok () →
      check_max_length parameter name v = .ok () →
      parameter.min_value = some mv → pyLt v mv = .ok true →
      validate_hash_parameter parameter name value =
        .error (.valueError ("Value of parameter " ++ name ++ " cannot be less than " ++
          pyStr mv ++ ": " ++ pyRepr v))) ∧
    (∀ v mv, parameter.type value = some v →
      validator_check parameter v = .ok () →
      check_min_length parameter name v = .ok () →
      check_max_length parameter name v = .ok () →
      check_min_value parameter name v = .ok () →
      parameter.max_value = some mv → pyLt mv v = .ok true →
      validate_hash_parameter parameter name value =
        .error (.valueError ("Value of parameter " ++ name ++ " cannot be greater than " ++
          pyStr mv ++ ": " ++ pyRepr v))) ∧
    (∀ v, parameter.type value = some v →
      validator_check parameter v = .ok () →
      check_min_length parameter name v = .ok () →
      check_max_length parameter name v = .ok () →
      check_min_value parameter name v = .ok () →
      check_max_value parameter name v = .ok () →
      validate_hash_parameter parameter name value = .ok v) := by
  refine ⟨?_, ?_, ?_, ?_, ?_, ?_, ?_⟩
  · intro ht
    unfold validate_hash_parameter
    rw [ht]
  · intro v e ht hv
    unfold validate_hash_parameter
    rw [ht]
    dsimp only
    rw [hv]
  · intro v n m ht hv hm hlen hlt
    have hck : check_min_length parameter name v =
        .error (.valueError ("Length of parameter " ++ name ++ " cannot be less than " ++
          toString m ++ ": " ++ pyRepr v)) := by
      unfold check_min_length
      rw [hm]
      dsimp only
      rw [hlen]
      dsimp only
      rw [if_pos hlt]
    unfold validate_hash_parameter
    rw [ht]
    dsimp only
    rw [hv]
    dsimp only
    rw [hck]
  · intro v n m ht hv hmin hm hlen hgt
    have hck : check_max_length parameter name v =
        .error (.valueError ("Length of parameter " ++ name ++ " cannot be greater than " ++
          toString m ++ ": " ++ pyRepr v)) := by
      unfold check_max_length
      rw [hm]
      dsimp only
      rw [hlen]
      dsimp only
      rw [if_pos hgt]
    unfold validate_hash_parameter
    rw [ht]
    dsimp only
    rw [hv]
    dsimp only
    rw [hmin]
    dsimp only
    rw [hck]
  · intro v mv ht hv hmin hmax hm hlt
    have hck : check_min_value parameter name v =
        .error (.valueError ("Value of parameter " ++ name ++ " cannot be less than " ++
          pyStr mv ++ ": " ++ pyRepr v)) := by
      unfold check_min_value
      rw [hm]
      dsimp only
      rw [hlt]
      dsimp only
      rw [if_pos rfl]
    unfold validate_hash_parameter
    rw [ht]
    dsimp only
    rw [hv]
    dsimp only
    rw [hmin]
    dsimp only
    rw [hmax]
    dsimp only
    rw [hck]
  · intro v mv ht hv hmin hmax hminv hm hgt
    have hck : check_max_value parameter name v =
        .error (.valueError ("Value of parameter " ++ name ++ " cannot be greater than " ++
          pyStr mv ++ ": " ++ pyRepr v)) := by
      unfold check_max_value
      rw [hm]
      dsimp only
      rw [hgt]
      dsimp only
      rw [if_pos rfl]
    unfold validate_hash_parameter
    rw [ht]
    dsimp only
    rw [hv]
    dsimp only
    rw [hmin]
    dsimp only
    rw [hmax]
    dsimp only
    rw [hminv]
    dsimp only
    rw [hck]
  · intro v ht hv hmin hmax hminv hmaxv
    unfold validate_hash_parameter
    rw [ht]
    dsimp only
    rw [hv]
    dsimp only
    rw [hmin]
    dsimp only
    rw [hmax]
    dsimp only
    rw [hminv]
    dsimp only
    rw [hmaxv]

/-- Witness for C6: the bounded integer parameter rejects a value below
its minimum with the message naming parameter and value, and returns an
in-range value coerced. -/
theorem validate_hash_parameter_order_witness :
    validate_hash_parameter roundsParam "Rounds" (.int 2) =
      .error (.valueError "Value of parameter Rounds cannot be less than 4: 2") ∧
    validate_hash_parameter roundsParam "Rounds" (.int 10) = .ok (.int 10) :=
  ⟨(validate_hash_parameter_order roundsParam "Rounds" (.int 2)).2.2.2.2.1
      (.int 2) (.int 4) rfl rfl rfl rfl rfl rfl,
   (validate_hash_parameter_order roundsParam "Rounds" (.int 10)).2.2.2.2.2.2
      (.int 10) rfl rfl rfl rfl rfl rfl⟩

/-- C7: after the password source, `Scheme`, `AllowInsecure`, the scheme's
declared parameters and a tolerated `ServiceToken` key have been consumed,
`hash_password` fails with an `Unknown parameters` error listing the
remaining keys in sorted order when any remain, and hashes when none
remain. -/
theorem hash_password_unknown_params (env : Env) (event : Event)
    (pw : String) (alg : HashAlgorithm) (kw : Dict) (st1 st2 st3 : Store)
    (hrt : event.requestType = "Create" ∨ event.requestType = "Update")
    (hone : (event.resourceProperties.hasKey "PlaintextPassword" &&
             event.resourceProperties.hasKey "CiphertextBase64Password") = false)
    (hany : (!event.resourceProperties.hasKey "PlaintextPassword" &&
             !event.resourceProperties.hasKey "CiphertextBase64Password") = false)
    (hsrc : password_source env
        { eventProps := event.resourceProperties, rp := event.resourceProperties } =
        .ret pw st1)
    (halg : get_hash_algorithm env st1 = .ret alg st2)
    (hproc : process_hash_parameters alg.parameters [] st2 = .ret kw st3) :
    (st3.rp.erase "ServiceToken" ≠ [] →
      hash_password env event = .raise (.valueError ("Unknown parameters: " ++
          commaJoin (stableSort pyStrLe ((st3.rp.erase "ServiceToken").map Prod.fst))))
        { st3 with rp := st3.rp.erase "ServiceToken" }) ∧
    (st3.rp.erase "ServiceToken" = [] →
      hash_password env event = .ret (some [("Hash", .str (alg.algorithm kw pw))])
        { st3 with rp := st3.rp.erase "ServiceToken" }) := by
  have hone' : ¬(event.resourceProperties.hasKey "PlaintextPassword" &&
      event.resourceProperties.hasKey "CiphertextBase64Password") = true := by
    rw [hone]
    exact Bool.false_ne_true
  have hany' : ¬(!event.resourceProperties.hasKey "PlaintextPassword" &&
      !event.resourceProperties.hasKey "CiphertextBase64Password") = true := by
    rw [hany]
    exact Bool.false_ne_true
  constructor
  · intro hne
    unfold hash_password initStore dictCopy
    rw [if_neg (not_not_intro hrt)]
    dsimp only
    rw [if_neg hone', if_neg hany', hsrc]
    dsimp only
    rw [halg]
    dsimp only
    rw [hproc]
    dsimp only
    rcases hcase : st3.rp.erase "ServiceToken" with _ | ⟨p, rest⟩
    · exact absurd hcase hne
    · simp [hcase]
  · intro hempty
    unfold hash_password initStore dictCopy
    rw [if_neg (not_not_intro hrt)]
    dsimp only
    rw [if_neg hone', if_neg hany', hsrc]
    dsimp only
    rw [halg]
    dsimp only
    rw [hproc]
    dsimp only
    rw [hempty]
    simp [hempty]

/-- Witness for C7: a request with leftover keys `Zebra` and `Alpha`
fails listing them in sorted order; the same request without them
succeeds and hashes. -/
theorem hash_password_unknown_params_witness :
    hash_password baseEnv hashUnknownEvent =
      .raise (.valueError "Unknown parameters: Alpha, Zebra")
        { eventProps := hashUnknownEvent.resourceProperties,
          rp := [("Zebra", .int 1), ("Alpha", .int 2)] } ∧
    hash_password baseEnv hashCleanEvent =
      .ret (some [("Hash", .str "h1-pw")])
        { eventProps := hashCleanEvent.resourceProperties, rp := [] } :=
  ⟨(hash_password_unknown_params baseEnv hashUnknownEvent "pw" secureAlg
      [("rounds", .int 10)]
      { eventProps := hashUnknownEvent.resourceProperties,
        rp := [("Scheme", .str "pbkdf2-sha256"), ("Zebra", .int 1), ("Alpha", .int 2),
               ("ServiceToken", .str "token"), ("Rounds", .int 10)] }
      { eventProps := hashUnknownEvent.resourceProperties,
        rp := [("Zebra", .int 1), ("Alpha", .int 2),
               ("ServiceToken", .str "token"), ("Rounds", .int 10)] }
      { eventProps := hashUnknownEvent.resourceProperties,
        rp := [("Zebra", .int 1), ("Alpha", .int 2), ("ServiceToken", .str "token")] }
      (Or.inl rfl) rfl rfl rfl rfl rfl).1 (List.cons_ne_nil _ _),
   (hash_password_unknown_params baseEnv hashCleanEvent "pw" secureAlg
      [("rounds", .int 10)]
      { eventProps := hashCleanEvent.resourceProperties,
        rp := [("Scheme", .str "pbkdf2-sha256"), ("Rounds", .int 10),
               ("ServiceToken", .str "token")] }
      { eventProps := hashCleanEvent.resourceProperties,
        rp := [("Rounds", .int 10), ("ServiceToken", .str "token")] }
      { eventProps := hashCleanEvent.resourceProperties,
        rp := [("ServiceToken", .str "token")] }
      (Or.inl rfl) rfl rfl rfl rfl rfl).2 rfl⟩

/-- C9: for every lifecycle event whose request type is neither Create nor
Update, the four computation handlers return `None` immediately without
touching the resource properties, and the dispatcher reports `SUCCESS`
with empty result data. -/
theorem delete_requests_noop (env : Env) (event : Event)
    (h1 : event.requestType ≠ "Create") (h2 : event.requestType ≠ "Update") :
    find_image env event = .ret none (initStore event) ∧
    generate_password env event = .ret none (initStore event) ∧
    hash_password env event = .ret none (initStore event) ∧
    secure_random env event = .ret none (initStore event) ∧
    (event.resourceType = "Custom::FindImage" ∨
     event.resourceType = "Custom::GeneratePassword" ∨
     event.resourceType = "Custom::HashPassword" ∨
     event.resourceType = "Custom::SecureRandom" →
      (lambda_handler env event).1.status = "SUCCESS" ∧
      (lambda_handler env event).1.data = some []) := by
  have hguard : ¬(event.requestType = "Create" ∨ event.requestType = "Update") := by
    tauto
  have hfi : find_image env event = .ret none (initStore event) := by
    unfold find_image
    dsimp only
    rw [if_pos hguard]
  have hgp : generate_password env event = .ret none (initStore event) := by
    unfold generate_password
    dsimp only
    rw [if_pos hguard]
  have hhp : hash_password env event = .ret none (initStore event) := by
    unfold hash_password
    dsimp only
    rw [if_pos hguard]
  have hsr : secure_random env event = .ret none (initStore event) := by
    unfold secure_random
    dsimp only
    rw [if_pos hguard]
  refine ⟨hfi, hgp, hhp, hsr, ?_⟩
  intro hres
  rcases hres with h | h | h | h
  · unfold lambda_handler
    rw [h, show handlersGet "Custom::FindImage" = some find_image from rfl]
    dsimp only
    rw [hfi]
    cases event.physicalResourceId <;> simp [Dict.getVal, Dict.erase]
  · unfold lambda_handler
    rw [h, show handlersGet "Custom::GeneratePassword" = some generate_password from rfl]
    dsimp only
    rw [hgp]
    cases event.physicalResourceId <;> simp [Dict.getVal, Dict.erase]
  · unfold lambda_handler
    rw [h, show handlersGet "Custom::HashPassword" = some hash_password from rfl]
    dsimp only
    rw [hhp]
    cases event.physicalResourceId <;> simp [Dict.getVal, Dict.erase]
  · unfold lambda_handler
    rw [h, show handlersGet "Custom::SecureRandom" = some secure_random from rfl]
    dsimp only
    rw [hsr]
    cases event.physicalResourceId <;> simp [Dict.getVal, Dict.erase]

/-- Witness for C9: a delete event with an invalid `Size` succeeds with
empty data because `secure_random` never reads the property. -/
theorem delete_requests_noop_witness :
    secure_random baseEnv deleteEvent = .ret none (initStore deleteEvent) ∧
    (lambda_handler baseEnv deleteEvent).1.status = "SUCCESS" ∧
    (lambda_handler baseEnv deleteEvent).1.data = some [] :=
  ⟨(delete_requests_noop baseEnv deleteEvent (by decide) (by decide)).2.2.2.1,
   (delete_requests_noop baseEnv deleteEvent (by decide) (by decide)).2.2.2.2
     (Or.inr (Or.inr (Or.inr rfl)))⟩

/-- C2: on a non-empty candidate pool, `find_image` orders the candidates
descending by the 3-tuple key (preferred virtualization type matched,
preferred root device type matched, creation date), an absent preference
always matching; it returns the first identifier of that order and the
full ordered identifier list, and excludes no candidate (the ordered list
is a permutation of the pool).  In particular, on the spec's two-image
example with no preferences the result is `ami-b` before `ami-a`. -/
theorem find_image_ranking :
    (∀ (env : Env) (event : Event) (owner : Value) (rp2 : Dict)
       (filters : List (String × Value)) (images0 candidates : List Image),
      (event.requestType = "Create" ∨ event.requestType = "Update") →
      event.resourceProperties.getVal "Owner" = some owner →
      env.addFilters event.resourceProperties = (rp2, filters) →
      env.describeImages owner (filters.map (fun kv =>
        Value.dict [("Name", Value.str kv.1), ("Values", kv.2)])) = images0 →
      images0 ≠ [] →
      env.filterNamesAndDescriptions images0 rp2 = candidates →
      candidates ≠ [] →
      ∃ hd tl,
        sortImagesDesc env.parseDate (rp2.getVal "PreferredVirtualizationType")
          (rp2.getVal "PreferredRootDeviceType") candidates = hd :: tl ∧
        find_image env event = .ret (some [("ImageId", .str hd.imageId),
            ("MatchingImageIds", .list (((hd :: tl).map Image.imageId).map Value.str))])
          { eventProps := event.resourceProperties, rp := rp2 } ∧
        (hd :: tl).Perm candidates ∧
        (hd :: tl).Pairwise (fun x y =>
          key_le (sort_key env.parseDate (rp2.getVal "PreferredVirtualizationType")
                    (rp2.getVal "PreferredRootDeviceType") y)
                 (sort_key env.parseDate (rp2.getVal "PreferredVirtualizationType")
                    (rp2.getVal "PreferredRootDeviceType") x) = true)) ∧
    find_image envC2 findImageEvent = .ret (some [("ImageId", .str "ami-b"),
        ("MatchingImageIds", .list [.str "ami-b", .str "ami-a"])])
      { eventProps := [("Owner", .str "amazon")], rp := [("Owner", .str "amazon")] } := by
  constructor
  · intro env event owner rp2 filters images0 candidates hrt hOwner haf hdi hne0 hf hne
    have hperm0 := stableSort_perm
      (fun x y => key_le
        (sort_key env.parseDate (rp2.getVal "PreferredVirtualizationType")
          (rp2.getVal "PreferredRootDeviceType") y)
        (sort_key env.parseDate (rp2.getVal "PreferredVirtualizationType")
          (rp2.getVal "PreferredRootDeviceType") x)) candidates
    obtain ⟨hd, tl, hranked⟩ : ∃ hd tl,
        sortImagesDesc env.parseDate (rp2.getVal "PreferredVirtualizationType")
          (rp2.getVal "PreferredRootDeviceType") candidates = hd :: tl := by
      rcases hcands : sortImagesDesc env.parseDate (rp2.getVal "PreferredVirtualizationType")
          (rp2.getVal "PreferredRootDeviceType") candidates with _ | ⟨hd, tl⟩
      · exfalso
        have hc : stableSort (fun x y => key_le
            (sort_key env.parseDate (rp2.getVal "PreferredVirtualizationType")
              (rp2.getVal "PreferredRootDeviceType") y)
            (sort_key env.parseDate (rp2.getVal "PreferredVirtualizationType")
              (rp2.getVal "PreferredRootDeviceType") x)) candidates = [] := hcands
        rw [hc] at hperm0
        exact hne hperm0.symm.eq_nil
      · exact ⟨hd, tl, rfl⟩
    have hranked' : stableSort (fun x y => key_le
        (sort_key env.parseDate (rp2.getVal "PreferredVirtualizationType")
          (rp2.getVal "PreferredRootDeviceType") y)
        (sort_key env.parseDate (rp2.getVal "PreferredVirtualizationType")
          (rp2.getVal "PreferredRootDeviceType") x)) candidates = hd :: tl := hranked
    refine ⟨hd, tl, hranked, ?_, ?_, ?_⟩
    · unfold find_image initStore dictCopy
      rw [if_neg (not_not_intro hrt)]
      dsimp only
      rw [hOwner]
      dsimp only
      rw [haf]
      dsimp only
      rw [hdi]
      have hie : images0.isEmpty = false := by
        rcases images0 with _ | _
        · exact absurd rfl hne0
        · rfl
      rw [hie]
      rw [if_neg Bool.false_ne_true]
      rw [hf, hranked]
      simp
    · rw [← hranked']
      exact hperm0
    · have hp := pairwise_stableSort
        (fun x y => key_le
          (sort_key env.parseDate (rp2.getVal "PreferredVirtualizationType")
            (rp2.getVal "PreferredRootDeviceType") y)
          (sort_key env.parseDate (rp2.getVal "PreferredVirtualizationType")
            (rp2.getVal "PreferredRootDeviceType") x))
        (fun a b c hab hbc => key_le_trans _ _ _ hbc hab)
        (fun a b => key_le_total _ _) candidates
      rw [hranked'] at hp
      exact hp
  · rfl

/-- Witness for C2: the general ranking statement applied at the spec's
two-image example environment. -/
theorem find_image_ranking_witness :
    ∃ hd tl,
      sortImagesDesc envC2.parseDate (Dict.getVal [("Owner", .str "amazon")]
          "PreferredVirtualizationType")
        (Dict.getVal [("Owner", .str "amazon")] "PreferredRootDeviceType") [imgA, imgB] =
        hd :: tl ∧
      find_image envC2 findImageEvent = .ret (some [("ImageId", .str hd.imageId),
          ("MatchingImageIds", .list (((hd :: tl).map Image.imageId).map Value.str))])
        { eventProps := findImageEvent.resourceProperties, rp := [("Owner", .str "amazon")] } ∧
      (hd :: tl).Perm [imgA, imgB] ∧
      (hd :: tl).Pairwise (fun x y =>
        key_le (sort_key envC2.parseDate (Dict.getVal [("Owner", .str "amazon")]
                  "PreferredVirtualizationType")
                  (Dict.getVal [("Owner", .str "amazon")] "PreferredRootDeviceType") y)
               (sort_key envC2.parseDate (Dict.getVal [("Owner", .str "amazon")]
                  "PreferredVirtualizationType")
                  (Dict.getVal [("Owner", .str "amazon")] "PreferredRootDeviceType") x) = true) :=
  find_image_ranking.1 envC2 findImageEvent (.str "amazon") [("Owner", .str "amazon")] []
    [imgA, imgB] [imgA, imgB] (Or.inl rfl) rfl rfl rfl (List.cons_ne_nil _ _) rfl
    (List.cons_ne_nil _ _)

/-- C3 counterexample: with a non-empty image lookup whose
name/description filtering removes every image, `find_image` raises an
`IndexError` (`list index out of range`), not the no-match `ValueError`
the claim asserts. -/
theorem find_image_no_match_counterexample :
    (find_image envC3 findImageEvent).raised = some (.indexError "list index out of range") ∧
    ¬((find_image envC3 findImageEvent).raised =
        some (.valueError "No AMIs found that match the filters applied.")) := by
  constructor
  · rfl
  · decide

/-- C3 amended: the no-match `ValueError` is raised exactly when the image
lookup itself returns an empty pool; when the lookup is non-empty but the
name/description filtering removes every image, `find_image` raises an
`IndexError` instead. -/
theorem find_image_no_match_amended :
    (∀ (env : Env) (event : Event) (owner : Value) (rp2 : Dict)
       (filters : List (String × Value)),
      (event.requestType = "Create" ∨ event.requestType = "Update") →
      event.resourceProperties.getVal "Owner" = some owner →
      env.addFilters event.resourceProperties = (rp2, filters) →
      env.describeImages owner (filters.map (fun kv =>
        Value.dict [("Name", Value.str kv.1), ("Values", kv.2)])) = [] →
      find_image env event =
        .raise (.valueError "No AMIs found that match the filters applied.")
          { eventProps := event.resourceProperties, rp := rp2 }) ∧
    (∀ (env : Env) (event : Event) (owner : Value) (rp2 : Dict)
       (filters : List (String × Value)) (images0 : List Image),
      (event.requestType = "Create" ∨ event.requestType = "Update") →
      event.resourceProperties.getVal "Owner" = some owner →
      env.addFilters event.resourceProperties = (rp2, filters) →
      env.describeImages owner (filters.map (fun kv =>
        Value.dict [("Name", Value.str kv.1), ("Values", kv.2)])) = images0 →
      images0 ≠ [] →
      env.filterNamesAndDescriptions images0 rp2 = [] →
      find_image env event = .raise (.indexError "list index out of range")
        { eventProps := event.resourceProperties, rp := rp2 }) := by
  constructor
  · intro env event owner rp2 filters hrt hOwner haf hdi
    unfold find_image initStore dictCopy
    rw [if_neg (not_not_intro hrt)]
    dsimp only
    rw [hOwner]
    dsimp only
    rw [haf]
    dsimp only
    rw [hdi]
    rfl
  · intro env event owner rp2 filters images0 hrt hOwner haf hdi hne0 hf
    unfold find_image initStore dictCopy
    rw [if_neg (not_not_intro hrt)]
    dsimp only
    rw [hOwner]
    dsimp only
    rw [haf]
    dsimp only
    rw [hdi]
    have hie : images0.isEmpty = false := by
      rcases images0 with _ | _
      · exact absurd rfl hne0
      · rfl
    rw [hie]
    rw [if_neg Bool.false_ne_true]
    rw [hf]
    rfl

/-- Witness for C3's amended statement: an empty lookup raises the
no-match error; a lookup emptied by the filtering raises the index
error. -/
theorem find_image_no_match_amended_witness :
    find_image baseEnv findImageEvent =
      .raise (.valueError "No AMIs found that match the filters applied.")
        { eventProps := findImageEvent.resourceProperties, rp := [("Owner", .str "amazon")] } ∧
    find_image envC3 findImageEvent = .raise (.indexError "list index out of range")
      { eventProps := findImageEvent.resourceProperties, rp := [("Owner", .str "amazon")] } :=
  ⟨find_image_no_match_amended.1 baseEnv findImageEvent (.str "amazon")
      [("Owner", .str "amazon")] [] (Or.inl rfl) rfl rfl rfl,
   find_image_no_match_amended.2 envC3 findImageEvent (.str "amazon")
      [("Owner", .str "amazon")] [] [imgA] (Or.inl rfl) rfl rfl rfl
      (List.cons_ne_nil _ _) rfl⟩

/-- C8: a Create/Update `secure_random` request whose `Size` coerces to a
positive integer `n` returns three encodings of the same `n` generated
bytes — the ISO-8859-1 text, the lowercase hex string of length `2n`, and
the base64 string — each decoding back to those bytes; a `Size` that does
not coerce to a positive integer makes the handler raise. -/
theorem secure_random_encodings :
    (∀ (env : Env) (event : Event) (sizeV : Value) (n : Int),
      (event.requestType = "Create" ∨ event.requestType = "Update") →
      event.resourceProperties.getVal "Size" = some sizeV →
      pyInt sizeV = .ok n →
      0 < n →
      (env.urandom n.toNat).length = n.toNat →
      (∀ b ∈ env.urandom n.toNat, b < 256) →
      (secure_random env event = .ret (some [
          ("Raw", .str (isoDecode (env.urandom n.toNat))),
          ("Hex", .str (String.mk (hexEncode (env.urandom n.toNat)))),
          ("Base64", .str (b64Encode (env.urandom n.toNat)))]) (initStore event) ∧
       (isoDecode (env.urandom n.toNat)).length = n.toNat ∧
       (isoDecode (env.urandom n.toNat)).data.map Char.toNat = env.urandom n.toNat ∧
       (hexEncode (env.urandom n.toNat)).length = 2 * n.toNat ∧
       (∀ c ∈ hexEncode (env.urandom n.toNat), c ∈ hexChars) ∧
       hexDecode (hexEncode (env.urandom n.toNat)) = some (env.urandom n.toNat) ∧
       b64Decode (b64Encode (env.urandom n.toNat)) = some (env.urandom n.toNat))) ∧
    (∀ (env : Env) (event : Event) (sizeV : Value),
      (event.requestType = "Create" ∨ event.requestType = "Update") →
      event.resourceProperties.getVal "Size" = some sizeV →
      (∀ n, pyInt sizeV = .ok n → n ≤ 0) →
      ((secure_random env event).raised).isSome = true) := by
  constructor
  · intro env event sizeV n hrt hsize hint hpos hlen hbytes
    have heq : secure_random env event = .ret (some [
        ("Raw", .str (isoDecode (env.urandom n.toNat))),
        ("Hex", .str (String.mk (hexEncode (env.urandom n.toNat)))),
        ("Base64", .str (b64Encode (env.urandom n.toNat)))]) (initStore event) := by
      unfold secure_random initStore
      rw [if_neg (not_not_intro hrt)]
      dsimp only
      rw [hsize]
      dsimp only
      rw [hint]
      dsimp only
      rw [if_neg (by omega : ¬n ≤ 0)]
    refine ⟨heq, ?_, isoDecode_codes _ hbytes, ?_, hexEncode_mem _ hbytes,
      hexDecode_hexEncode _ hbytes, b64Decode_b64Encode _ hbytes⟩
    · rw [isoDecode_length, hlen]
    · rw [hexEncode_length, hlen]
  · intro env event sizeV hrt hsize hbad
    unfold secure_random initStore
    rw [if_neg (not_not_intro hrt)]
    dsimp only
    rw [hsize]
    dsimp only
    cases hint : pyInt sizeV with
    | error e =>
      cases e <;> rfl
    | ok n =>
      dsimp only
      rw [if_pos (hbad n hint)]
      rfl

/-- Witness for C8: `Size=16` yields a 32-character lowercase hex string
and raw/hex/base64 encodings all decoding to the same 16 bytes; a
non-numeric `Size` raises. -/
theorem secure_random_encodings_witness :
    (secure_random baseEnv secureRandomEvent = .ret (some [
        ("Raw", .str (isoDecode (List.range 16))),
        ("Hex", .str (String.mk (hexEncode (List.range 16)))),
        ("Base64", .str (b64Encode (List.range 16)))]) (initStore secureRandomEvent) ∧
     (isoDecode (List.range 16)).length = 16 ∧
     (isoDecode (List.range 16)).data.map Char.toNat = List.range 16 ∧
     (hexEncode (List.range 16)).length = 2 * 16 ∧
     (∀ c ∈ hexEncode (List.range 16), c ∈ hexChars) ∧
     hexDecode (hexEncode (List.range 16)) = some (List.range 16) ∧
     b64Decode (b64Encode (List.range 16)) = some (List.range 16)) ∧
    ((secure_random baseEnv badSizeEvent).raised).isSome = true :=
  ⟨secure_random_encodings.1 baseEnv secureRandomEvent (.int 16) 16 (Or.inl rfl) rfl rfl
      (by decide) rfl (by decide),
   secure_random_encodings.2 baseEnv badSizeEvent (.str "oops") (Or.inl rfl) rfl
      (fun n h => by
        have hh : pyInt (Value.str "oops") =
            .error (.valueError "invalid literal for int() with base 10: \x27oops\x27") := rfl
        rw [hh] at h
        exact Except.noConfusion h)⟩

end CfnGen
